import Mathlib

/-!
Shallow embedding of the PharmaSys client logic that the specification
describes: the purchase-deletion stock rollback
(src/pages/purchases/purchase-list/index.tsx), the item form's
unit-conversion parsing/serialization and price arithmetic
(src/hooks/addItem.ts), and the generic master-data fetch/mutation hook
(src/handlers/master-data-management/index.ts).

Numbers held in JavaScript `number` values (prices, quantities, stock,
conversion rates) are modelled as rationals; `Math.round` is `round`
(both send x to the floor of x + 1/2); `Math.max(0, _)` is `max 0 _`;
`Math.ceil` of a quotient is `Int.ceil` of the rational quotient.
Row ids and unit names are strings.  A JavaScript `x || 0` on a number
is the identity in this model (0 maps to 0), and `s || t` on strings is
modelled by an emptiness test, since the only falsy string is "".
-/

namespace PharmaSys

/-- One record of the `unit_conversions` array stored inline on an
`items` row: `{unit_name, to_unit_id, conversion_rate, base_price,
sell_price}`. -/
structure DBUnitConversion where
  unit_name : String
  to_unit_id : String
  conversion_rate : ℚ
  base_price : ℚ
  sell_price : ℚ
deriving Repr, DecidableEq

/-- A row of the `items` table, restricted to the columns the
purchase-deletion rollback selects: `stock, base_unit,
unit_conversions` (plus the id it is keyed by).  `stock` is nullable in
the database, hence the `Option`; the code reads it as
`itemData.stock || 0`. -/
structure ItemRow where
  id : String
  stock : Option ℚ
  base_unit : String
  unit_conversions : List DBUnitConversion
deriving Repr, DecidableEq

/-- A row of `purchase_items` as selected by the deletion mutation:
`item_id, quantity, unit`, keyed by `purchase_id`. -/
structure PurchaseItemRow where
  purchase_id : String
  item_id : String
  quantity : ℚ
  unit : String
deriving Repr, DecidableEq

/-- The per-line conversion step of `deletePurchaseMutation`
(purchase-list/index.tsx, lines 159-171): start from the raw purchased
quantity; when the line's unit differs from the item's base unit and a
conversion record with a matching `unit_name` exists, replace it by
`item.quantity / unitConversion.conversion_rate`. -/
def rollbackQuantityInBaseUnit (item : PurchaseItemRow) (itemData : ItemRow) : ℚ :=
  if item.unit ≠ itemData.base_unit then
    match itemData.unit_conversions.find? (fun uc => uc.unit_name == item.unit) with
    | some unitConversion => item.quantity / unitConversion.conversion_rate
    | none => item.quantity
  else
    item.quantity

/-- The stock written back for one line
(purchase-list/index.tsx, lines 173-176):
`Math.max(0, (itemData.stock || 0) - quantityInBaseUnit)`. -/
def newStockAfterRollback (item : PurchaseItemRow) (itemData : ItemRow) : ℚ :=
  max 0 ((itemData.stock.getD 0) - rollbackQuantityInBaseUnit item itemData)

/-- Claim C1 (counterexample): the rollback does NOT subtract
`quantity * conversion_rate`.  Concretely, a line of 10 "strip" against
an item whose base unit is "box" with a matching conversion record of
rate 2 is converted to 10 / 2 = 5 base units, not 10 * 2 = 20, even
though the line's unit differs from the base unit and the matching
conversion record exists. -/
theorem rollback_times_rate_counterexample :
    ("strip" : String) ≠ "box" ∧
    (List.find? (fun uc => uc.unit_name == "strip")
      [(⟨"strip", "u1", 2, 0, 0⟩ : DBUnitConversion)]) = some ⟨"strip", "u1", 2, 0, 0⟩ ∧
    rollbackQuantityInBaseUnit ⟨"p1", "i1", 10, "strip"⟩
      ⟨"i1", some 100, "box", [⟨"strip", "u1", 2, 0, 0⟩]⟩ ≠ 10 * 2 := by
  refine ⟨by decide, by decide, ?_⟩
  norm_num [rollbackQuantityInBaseUnit, List.find?]
  rw [if_neg (by decide)]
  norm_num

/-- Claim C1 (amended): when a purchase line's unit differs from the
item's base unit and a conversion record with matching `unit_name`
exists, the quantity subtracted from stock (before clamping) is the
purchased quantity DIVIDED by that record's conversion rate. -/
theorem rollback_quantity_div_rate (item : PurchaseItemRow) (itemData : ItemRow)
    (uc : DBUnitConversion)
    (hne : item.unit ≠ itemData.base_unit)
    (hfind : itemData.unit_conversions.find? (fun c => c.unit_name == item.unit) = some uc) :
    rollbackQuantityInBaseUnit item itemData = item.quantity / uc.conversion_rate := by
  unfold rollbackQuantityInBaseUnit
  rw [if_pos hne, hfind]

/-- Witness for `rollback_quantity_div_rate` at the concrete line and
item of the counterexample: the rollback quantity is 10 / 2 = 5. -/
theorem rollback_quantity_div_rate_witness :
    rollbackQuantityInBaseUnit ⟨"p1", "i1", 10, "strip"⟩
      ⟨"i1", some 100, "box", [⟨"strip", "u1", 2, 0, 0⟩]⟩ = 5 := by
  have h := rollback_quantity_div_rate ⟨"p1", "i1", 10, "strip"⟩
    ⟨"i1", some 100, "box", [⟨"strip", "u1", 2, 0, 0⟩]⟩
    ⟨"strip", "u1", 2, 0, 0⟩ (by decide) (by decide)
  rw [h]
  norm_num

/-- Claim C2: the stock written back is `max 0 (previous - converted)`;
it is never negative, and when the converted quantity strictly exceeds
the previous stock the written stock is exactly 0. -/
theorem newStock_clamped_at_zero (item : PurchaseItemRow) (itemData : ItemRow)
    (s : ℚ) (hs : itemData.stock = some s) :
    newStockAfterRollback item itemData
        = max 0 (s - rollbackQuantityInBaseUnit item itemData) ∧
    0 ≤ newStockAfterRollback item itemData ∧
    (s < rollbackQuantityInBaseUnit item itemData →
      newStockAfterRollback item itemData = 0) := by
  unfold newStockAfterRollback
  rw [hs]
  refine ⟨rfl, le_max_left _ _, fun hlt => ?_⟩
  have : s - rollbackQuantityInBaseUnit item itemData ≤ 0 := by linarith
  exact max_eq_left this

/-- Witness for `newStock_clamped_at_zero`: an item with stock 3 and a
rollback of 10 base units (base-unit line, no conversion) is written
back as 0. -/
theorem newStock_clamped_at_zero_witness :
    newStockAfterRollback ⟨"p1", "i1", 10, "pcs"⟩ ⟨"i1", some 3, "pcs", []⟩ = 0 := by
  have h := newStock_clamped_at_zero ⟨"p1", "i1", 10, "pcs"⟩
    ⟨"i1", some 3, "pcs", []⟩ 3 rfl
  exact h.2.2 (by norm_num [rollbackQuantityInBaseUnit])

/-- Claim C8: when the line's unit differs from the base unit but no
conversion record matches, the raw quantity is subtracted unconverted;
when the line's unit equals the base unit the quantity is likewise used
unchanged. -/
theorem rollback_unconverted_cases (item : PurchaseItemRow) (itemData : ItemRow) :
    (item.unit ≠ itemData.base_unit →
      itemData.unit_conversions.find? (fun uc => uc.unit_name == item.unit) = none →
      rollbackQuantityInBaseUnit item itemData = item.quantity) ∧
    (item.unit = itemData.base_unit →
      rollbackQuantityInBaseUnit item itemData = item.quantity) := by
  constructor
  · intro hne hfind
    unfold rollbackQuantityInBaseUnit
    rw [if_pos hne, hfind]
  · intro heq
    unfold rollbackQuantityInBaseUnit
    rw [if_neg (by simp [heq])]

/-- Witness for `rollback_unconverted_cases`: a "strip" line against a
"box" item whose conversion table only mentions "blister" keeps its raw
quantity 7, and a "box" line against the same item also keeps 7. -/
theorem rollback_unconverted_cases_witness :
    rollbackQuantityInBaseUnit ⟨"p1", "i1", 7, "strip"⟩
      ⟨"i1", some 100, "box", [⟨"blister", "u9", 4, 0, 0⟩]⟩ = 7 ∧
    rollbackQuantityInBaseUnit ⟨"p1", "i1", 7, "box"⟩
      ⟨"i1", some 100, "box", [⟨"blister", "u9", 4, 0, 0⟩]⟩ = 7 := by
  constructor
  · exact (rollback_unconverted_cases ⟨"p1", "i1", 7, "strip"⟩
      ⟨"i1", some 100, "box", [⟨"blister", "u9", 4, 0, 0⟩]⟩).1 (by decide) (by decide)
  · exact (rollback_unconverted_cases ⟨"p1", "i1", 7, "box"⟩
      ⟨"i1", some 100, "box", [⟨"blister", "u9", 4, 0, 0⟩]⟩).2 rfl

/-- An entry of the unit catalog (`item_units`): id and name, as held in
the `units` state of the add-item form. -/
structure UnitData where
  id : String
  name : String
deriving Repr, DecidableEq

/-- An in-memory conversion entry of the `useUnitConversion` hook, as
built by `fetchItemData` and read back by `handleSubmit`
(src/hooks/addItem.ts): the fields the save path uses are `unit` (with
its `name`), `to_unit_id`, `conversion_rate`, `basePrice` and
`sellPrice`. -/
structure HookUnitConversion where
  to_unit_id : String
  unit_name : String
  unit : UnitData
  conversion_rate : ℚ
  basePrice : ℚ
  sellPrice : ℚ
deriving Repr, DecidableEq

/-- The parse of one stored `unit_conversions` record into a hook entry
(`fetchItemData`, src/hooks/addItem.ts lines 486-521).  The unit is
looked up in the catalog BY NAME; when found, the hook entry takes the
catalog unit's id as `to_unit_id`.  When not found, a placeholder unit
is built from the record itself: its id is the stored `to_unit_id`, or
a freshly generated id when that is empty, and its name is the stored
`unit_name`, or "Unknown Unit" when that is empty (JavaScript `||`
on strings).  `conversion_rate`, `base_price` and `sell_price` carry
over through `|| 0`, the identity on numbers in this model. -/
def parseStoredConversion (units : List UnitData) (freshId : String)
    (conv : DBUnitConversion) : HookUnitConversion :=
  match units.find? (fun u => u.name == conv.unit_name) with
  | some unitDetail =>
      { to_unit_id := unitDetail.id
        unit_name := unitDetail.name
        unit := { id := unitDetail.id, name := unitDetail.name }
        conversion_rate := conv.conversion_rate
        basePrice := conv.base_price
        sellPrice := conv.sell_price }
  | none =>
      let placeholderId := if conv.to_unit_id = "" then freshId else conv.to_unit_id
      let placeholderName := if conv.unit_name = "" then "Unknown Unit" else conv.unit_name
      { to_unit_id := placeholderId
        unit_name := placeholderName
        unit := { id := placeholderId, name := placeholderName }
        conversion_rate := conv.conversion_rate
        basePrice := conv.base_price
        sellPrice := conv.sell_price }

/-- The serialization of one hook entry back to a stored record, as
`handleSubmit` writes it (src/hooks/addItem.ts lines 676-682 and
707-713): `{unit_name: uc.unit.name, to_unit_id: uc.to_unit_id,
conversion_rate: uc.conversion_rate, base_price: uc.basePrice,
sell_price: uc.sellPrice}`. -/
def serializeConversion (uc : HookUnitConversion) : DBUnitConversion :=
  { unit_name := uc.unit.name
    to_unit_id := uc.to_unit_id
    conversion_rate := uc.conversion_rate
    base_price := uc.basePrice
    sell_price := uc.sellPrice }

/-- Claim C3 (counterexample): the load/save round trip is NOT the
identity on the five stored fields.  A record naming unit "strip" with
stored `to_unit_id` "u1", loaded against a catalog whose "strip" entry
has id "u2", is saved back with `to_unit_id` "u2". -/
theorem conversion_roundtrip_counterexample :
    serializeConversion (parseStoredConversion [⟨"u2", "strip"⟩] "fresh"
        ⟨"strip", "u1", 10, 5, 7⟩)
      ≠ ⟨"strip", "u1", 10, 5, 7⟩ := by
  decide

/-- Claim C3 (amended): the round trip preserves `conversion_rate`,
`base_price` and `sell_price` always, preserves `unit_name` whenever it
is nonempty, and rewrites `to_unit_id` to the id of the catalog unit
with the same name whenever one exists (only records whose `unit_name`
matches no catalog unit keep their stored `to_unit_id`, and then only
when it is nonempty). -/
theorem conversion_roundtrip_preserved_fields (units : List UnitData)
    (freshId : String) (conv : DBUnitConversion) :
    (serializeConversion (parseStoredConversion units freshId conv)).conversion_rate
        = conv.conversion_rate ∧
    (serializeConversion (parseStoredConversion units freshId conv)).base_price
        = conv.base_price ∧
    (serializeConversion (parseStoredConversion units freshId conv)).sell_price
        = conv.sell_price ∧
    (conv.unit_name ≠ "" →
      (serializeConversion (parseStoredConversion units freshId conv)).unit_name
        = conv.unit_name) ∧
    (∀ u : UnitData, units.find? (fun v => v.name == conv.unit_name) = some u →
      (serializeConversion (parseStoredConversion units freshId conv)).to_unit_id = u.id) ∧
    (units.find? (fun v => v.name == conv.unit_name) = none → conv.to_unit_id ≠ "" →
      (serializeConversion (parseStoredConversion units freshId conv)).to_unit_id
        = conv.to_unit_id) := by
  unfold parseStoredConversion serializeConversion
  cases hfind : units.find? (fun v => v.name == conv.unit_name) with
  | some u =>
      have hname : u.name = conv.unit_name := by
        have := List.find?_some hfind
        simpa using this
      refine ⟨rfl, rfl, rfl, fun _ => hname, fun v hv => ?_, fun hnone _ => ?_⟩
      · cases hv
        rfl
      · simp at hnone
  | none =>
      refine ⟨rfl, rfl, rfl, fun hne => ?_, fun v hv => ?_, fun _ hne => ?_⟩
      · simp only []
        rw [if_neg hne]
      · simp at hv
      · simp only []
        rw [if_neg hne]

/-- Witness for `conversion_roundtrip_preserved_fields` at the
counterexample's inputs: rate, base price, sell price and the (nonempty)
unit name survive the round trip, and `to_unit_id` becomes the catalog
id "u2". -/
theorem conversion_roundtrip_preserved_fields_witness :
    (serializeConversion (parseStoredConversion [⟨"u2", "strip"⟩] "fresh"
        ⟨"strip", "u1", 10, 5, 7⟩)).conversion_rate = 10 ∧
    (serializeConversion (parseStoredConversion [⟨"u2", "strip"⟩] "fresh"
        ⟨"strip", "u1", 10, 5, 7⟩)).base_price = 5 ∧
    (serializeConversion (parseStoredConversion [⟨"u2", "strip"⟩] "fresh"
        ⟨"strip", "u1", 10, 5, 7⟩)).sell_price = 7 ∧
    (serializeConversion (parseStoredConversion [⟨"u2", "strip"⟩] "fresh"
        ⟨"strip", "u1", 10, 5, 7⟩)).unit_name = "strip" ∧
    (serializeConversion (parseStoredConversion [⟨"u2", "strip"⟩] "fresh"
        ⟨"strip", "u1", 10, 5, 7⟩)).to_unit_id = "u2" := by
  have h := conversion_roundtrip_preserved_fields [⟨"u2", "strip"⟩] "fresh"
    ⟨"strip", "u1", 10, 5, 7⟩
  exact ⟨h.1, h.2.1, h.2.2.1, h.2.2.2.1 (by decide),
    h.2.2.2.2.1 ⟨"u2", "strip"⟩ (by decide)⟩

/-- The `formData` state of the add-item form (src/hooks/addItem.ts
lines 121-137), restricted to the fields `handleSubmit` and
`calculateSellPriceFromMargin` read.  The field `updated_at` is an
opaque string option; there is no stock field in the form at all. -/
structure FormData where
  code : String
  name : String
  type_id : String
  category_id : String
  unit_id : String
  rack : String
  barcode : String
  description : String
  base_price : ℚ
  sell_price : ℚ
  min_stock : ℚ
  is_active : Bool
  is_medicine : Bool
  has_expiry_date : Bool
  updated_at : Option String
deriving Repr, DecidableEq

/-- `calculateSellPriceFromMargin` (src/hooks/addItem.ts lines
828-834): when the form's base price is positive, the sell price is
`Math.round(base_price * (1 + margin / 100))`; otherwise 0. -/
def calculateSellPriceFromMargin (formData : FormData) (margin : ℚ) : ℤ :=
  if formData.base_price > 0 then
    round (formData.base_price * (1 + margin / 100))
  else
    0

/-- Claim C5: for every margin m, the derived sell price is
`round(base_price * (1 + m/100))` when the base price is positive, and
0 when the base price is nonpositive. -/
theorem calculateSellPriceFromMargin_spec (formData : FormData) (margin : ℚ) :
    (0 < formData.base_price →
      calculateSellPriceFromMargin formData margin
        = round (formData.base_price * (1 + margin / 100))) ∧
    (formData.base_price ≤ 0 →
      calculateSellPriceFromMargin formData margin = 0) := by
  constructor
  · intro h
    unfold calculateSellPriceFromMargin
    rw [if_pos h]
  · intro h
    unfold calculateSellPriceFromMargin
    rw [if_neg (not_lt.mpr h)]

/-- Witness for `calculateSellPriceFromMargin_spec`: base price 200 and
margin 25 give round(200 * 1.25) = 250, and base price 0 gives 0. -/
theorem calculateSellPriceFromMargin_spec_witness :
    calculateSellPriceFromMargin
      ⟨"", "", "", "", "", "", "", "", 200, 0, 10, true, true, false, none⟩ 25 = 250 ∧
    calculateSellPriceFromMargin
      ⟨"", "", "", "", "", "", "", "", 0, 0, 10, true, true, false, none⟩ 25 = 0 := by
  constructor
  · have h := (calculateSellPriceFromMargin_spec
      ⟨"", "", "", "", "", "", "", "", 200, 0, 10, true, true, false, none⟩ 25).1
      (by norm_num)
    rw [h]
    norm_num [round_eq]
  · exact (calculateSellPriceFromMargin_spec
      ⟨"", "", "", "", "", "", "", "", 0, 0, 10, true, true, false, none⟩ 25).2 le_rfl

/-- The row `handleSubmit` inserts for a new item
(src/hooks/addItem.ts lines 690-714), field for field:
`stock` is the literal 0, everything else comes from the form state,
the hook's base unit, and the serialized conversions. -/
structure InsertItemRow where
  name : String
  category_id : String
  type_id : String
  unit_id : String
  base_price : ℚ
  sell_price : ℚ
  stock : ℚ
  min_stock : ℚ
  description : Option String
  is_active : Bool
  rack : Option String
  barcode : Option String
  code : String
  is_medicine : Bool
  base_unit : String
  has_expiry_date : Bool
  unit_conversions : List DBUnitConversion
deriving Repr, DecidableEq

/-- `mainItemData` of the non-edit branch of `handleSubmit`
(src/hooks/addItem.ts lines 690-714).  JavaScript `x || null` on a
string is modelled by an emptiness test. -/
def mainItemData (formData : FormData) (baseUnit : String)
    (conversions : List HookUnitConversion) : InsertItemRow :=
  { name := formData.name
    category_id := formData.category_id
    type_id := formData.type_id
    unit_id := formData.unit_id
    base_price := formData.base_price
    sell_price := formData.sell_price
    stock := 0
    min_stock := formData.min_stock
    description := if formData.description = "" then none else some formData.description
    is_active := formData.is_active
    rack := if formData.rack = "" then none else some formData.rack
    barcode := if formData.barcode = "" then none else some formData.barcode
    code := formData.code
    is_medicine := formData.is_medicine
    base_unit := baseUnit
    has_expiry_date := formData.has_expiry_date
    unit_conversions := conversions.map serializeConversion }

/-- Claim C10: every item inserted through the non-edit branch of
`handleSubmit` has stock 0, whatever the form's field values, the base
unit and the conversion list. -/
theorem inserted_item_stock_zero (formData : FormData) (baseUnit : String)
    (conversions : List HookUnitConversion) :
    (mainItemData formData baseUnit conversions).stock = 0 := by
  rfl

/-- The start index `from = (page - 1) * limit` computed by `fetchData`
(src/handlers/master-data-management/index.ts line 50) and by
`fetchPurchases` (purchase-list/index.tsx line 112). -/
def fetchRangeStart (page limit : Nat) : Nat := (page - 1) * limit

/-- The end index `to = from + limit - 1` of the same fetches
(master-data-management/index.ts lines 53 and 133,
purchase-list/index.tsx line 113). -/
def fetchRangeEnd (page limit : Nat) : Nat := fetchRangeStart page limit + limit - 1

/-- The backend's `.range(from, to)`: the inclusive row window from
index `from` through index `to` of the ordered result set. -/
def rangeRows {α : Type} (rows : List α) (rFrom rTo : Nat) : List α :=
  (rows.drop rFrom).take (rTo - rFrom + 1)

/-- What `fetchData` returns: the page of rows and the exact count
(`totalItems`). -/
structure FetchResult (α : Type) where
  data : List α
  totalItems : Nat
deriving Repr, DecidableEq

/-- `fetchData` (master-data-management/index.ts lines 49-153; the
items and non-items branches share this shape, as does `fetchPurchases`
in purchase-list/index.tsx lines 83-133): filter by the search
predicate, request `.range(from, to)` on the ordered matches, and
report the exact match count as the total.  The search predicate (the
`ilike` fuzzy pattern applied by the backend) is a parameter; `rows` is
the ordered table. -/
def fetchData {α : Type} (rows : List α) (matchesRow : α → Bool)
    (page limit : Nat) : FetchResult α :=
  let filtered := rows.filter matchesRow
  { data := rangeRows filtered (fetchRangeStart page limit) (fetchRangeEnd page limit)
    totalItems := filtered.length }

/-- `totalPages = Math.ceil(totalItems / itemsPerPage)`
(master-data-management/index.ts line 254, purchase-list/index.tsx
line 259). -/
def totalPages (totalItems itemsPerPage : Nat) : ℤ :=
  ⌈(totalItems : ℚ) / (itemsPerPage : ℚ)⌉

/-- Claim C6: for page p ≥ 1 and page size n ≥ 1 the fetch requests
exactly the inclusive window from (p-1)·n through (p-1)·n + n - 1 (so
the page holds at most n rows and equals drop-then-take on the ordered
matches), the reported total is the exact match count, and `totalPages`
is the ceiling of totalItems / n (characterized as the least integer p
with totalItems ≤ p·n). -/
theorem fetchData_pagination_spec {α : Type} (rows : List α) (matchesRow : α → Bool)
    (page limit : Nat) (_hp : 1 ≤ page) (hl : 1 ≤ limit) :
    fetchRangeStart page limit = (page - 1) * limit ∧
    fetchRangeEnd page limit = (page - 1) * limit + (limit - 1) ∧
    (fetchData rows matchesRow page limit).data
        = ((rows.filter matchesRow).drop ((page - 1) * limit)).take limit ∧
    (fetchData rows matchesRow page limit).data.length ≤ limit ∧
    (fetchData rows matchesRow page limit).totalItems = (rows.filter matchesRow).length ∧
    ((fetchData rows matchesRow page limit).totalItems : ℤ)
        ≤ totalPages (fetchData rows matchesRow page limit).totalItems limit * limit ∧
    (∀ q : ℤ, ((fetchData rows matchesRow page limit).totalItems : ℤ) ≤ q * limit →
      totalPages (fetchData rows matchesRow page limit).totalItems limit ≤ q) := by
  have hwin : fetchRangeEnd page limit - fetchRangeStart page limit + 1 = limit := by
    unfold fetchRangeEnd
    omega
  have hdata : (fetchData rows matchesRow page limit).data
      = ((rows.filter matchesRow).drop ((page - 1) * limit)).take limit := by
    unfold fetchData rangeRows
    rw [hwin]
    rfl
  have hlim : (0 : ℚ) < (limit : ℚ) := by
    exact_mod_cast Nat.lt_of_lt_of_le Nat.zero_lt_one hl
  refine ⟨rfl, by unfold fetchRangeEnd fetchRangeStart; omega, hdata, ?_, rfl, ?_, ?_⟩
  · rw [hdata]
    simp
  · set t := (fetchData rows matchesRow page limit).totalItems with ht
    have hceil : ((t : ℚ) / (limit : ℚ)) ≤ (totalPages t limit : ℚ) := by
      exact_mod_cast Int.le_ceil ((t : ℚ) / (limit : ℚ))
    have := (div_le_iff₀ hlim).mp hceil
    exact_mod_cast this
  · intro q hq
    set t := (fetchData rows matchesRow page limit).totalItems with ht
    have hq' : ((t : ℚ)) ≤ (q : ℚ) * (limit : ℚ) := by exact_mod_cast hq
    have : ((t : ℚ) / (limit : ℚ)) ≤ (q : ℚ) := (div_le_iff₀ hlim).mpr hq'
    exact Int.ceil_le.mpr this

/-- Witness for `fetchData_pagination_spec`: page 2 of size 2 over five
numbered rows (all matching) is the window 2..3, i.e. rows 3 and 4, the
total is 5, and totalPages 5 2 is the least integer p with 5 ≤ 2p,
namely 3. -/
theorem fetchData_pagination_spec_witness :
    (fetchData [1, 2, 3, 4, 5] (fun _ => true) 2 2).data = [3, 4] ∧
    (fetchData [1, 2, 3, 4, 5] (fun _ => true) 2 2).totalItems = 5 ∧
    totalPages 5 2 = 3 := by
  have h := fetchData_pagination_spec [1, 2, 3, 4, 5] (fun _ => true) 2 2
    (by norm_num) (by norm_num)
  refine ⟨?_, ?_, ?_⟩
  · rw [h.2.2.1]
    rfl
  · rw [h.2.2.2.2.1]
    rfl
  · have hNat : (fetchData [1, 2, 3, 4, 5] (fun _ => true) 2 2).totalItems = 5 := by
      rw [h.2.2.2.2.1]
      rfl
    have hub := h.2.2.2.2.2.2 3 (by rw [hNat]; norm_num)
    rw [hNat] at hub
    have hlb := h.2.2.2.2.2.1
    rw [hNat] at hlb
    omega

/-- The observable outcome of one invocation of a mutation handler:
how many times the backend operation was attempted, which blocking
alert messages were surfaced, and whether the error escaped the
handler. -/
structure HandlerOutcome where
  backendAttempts : Nat
  alerts : List String
  propagated : Bool
deriving Repr, DecidableEq

/-- `addMutation` of `useMasterDataManagement`
(master-data-management/index.ts lines 173-185): one insert; on error,
one alert "Gagal menambahkan {label}: {message}" and normal return. -/
def addMutationRun (entityNameLabel : String)
    (call : Except String Unit) : HandlerOutcome :=
  match call with
  | Except.ok _ => { backendAttempts := 1, alerts := [], propagated := false }
  | Except.error e =>
      { backendAttempts := 1
        alerts := ["Gagal menambahkan " ++ entityNameLabel ++ ": " ++ e]
        propagated := false }

/-- `updateMutation` (lines 187-208): one update; on error, one alert
"Gagal memperbarui {label}: {message}" and normal return. -/
def updateMutationRun (entityNameLabel : String)
    (call : Except String Unit) : HandlerOutcome :=
  match call with
  | Except.ok _ => { backendAttempts := 1, alerts := [], propagated := false }
  | Except.error e =>
      { backendAttempts := 1
        alerts := ["Gagal memperbarui " ++ entityNameLabel ++ ": " ++ e]
        propagated := false }

/-- `deleteMutation` (lines 210-226): one delete; on error, one alert
"Gagal menghapus {label}: {message}" and normal return. -/
def deleteMutationRun (entityNameLabel : String)
    (call : Except String Unit) : HandlerOutcome :=
  match call with
  | Except.ok _ => { backendAttempts := 1, alerts := [], propagated := false }
  | Except.error e =>
      { backendAttempts := 1
        alerts := ["Gagal menghapus " ++ entityNameLabel ++ ": " ++ e]
        propagated := false }

/-- The try/catch of `handleSubmit` around the item save
(src/hooks/addItem.ts lines 655-752): one insert or update; the catch
logs and surfaces the fixed alert, and the function returns normally
(the `finally` clears the saving flag either way). -/
def handleSubmitRun (call : Except String Unit) : HandlerOutcome :=
  match call with
  | Except.ok _ => { backendAttempts := 1, alerts := [], propagated := false }
  | Except.error _ =>
      { backendAttempts := 1
        alerts := ["Gagal menyimpan data item. Silakan coba lagi."]
        propagated := false }

/-- Claim C7: for each of the master-data add/update/delete handlers
and the item save, a backend error produces exactly one alert, the
backend operation is attempted exactly once, and the handler returns
normally (the error is not propagated); a successful call also attempts
the backend exactly once and alerts nothing. -/
theorem mutation_error_handled_once (entityNameLabel e : String) :
    ((addMutationRun entityNameLabel (Except.error e)).alerts.length = 1 ∧
      (addMutationRun entityNameLabel (Except.error e)).backendAttempts = 1 ∧
      (addMutationRun entityNameLabel (Except.error e)).propagated = false) ∧
    ((updateMutationRun entityNameLabel (Except.error e)).alerts.length = 1 ∧
      (updateMutationRun entityNameLabel (Except.error e)).backendAttempts = 1 ∧
      (updateMutationRun entityNameLabel (Except.error e)).propagated = false) ∧
    ((deleteMutationRun entityNameLabel (Except.error e)).alerts.length = 1 ∧
      (deleteMutationRun entityNameLabel (Except.error e)).backendAttempts = 1 ∧
      (deleteMutationRun entityNameLabel (Except.error e)).propagated = false) ∧
    ((handleSubmitRun (Except.error e)).alerts.length = 1 ∧
      (handleSubmitRun (Except.error e)).backendAttempts = 1 ∧
      (handleSubmitRun (Except.error e)).propagated = false) ∧
    ((addMutationRun entityNameLabel (Except.ok ())).alerts = [] ∧
      (addMutationRun entityNameLabel (Except.ok ())).backendAttempts = 1 ∧
      (handleSubmitRun (Except.ok ())).alerts = []) := by
  exact ⟨⟨rfl, rfl, rfl⟩, ⟨rfl, rfl, rfl⟩, ⟨rfl, rfl, rfl⟩, ⟨rfl, rfl, rfl⟩,
    ⟨rfl, rfl, rfl⟩⟩

/-- The pagination/search state of `useMasterDataManagement`
(master-data-management/index.ts lines 25-28). -/
structure MDMState where
  search : String
  debouncedSearch : String
  currentPage : Nat
  itemsPerPage : Nat
deriving Repr, DecidableEq

/-- The debounce timer body (master-data-management/index.ts lines
40-47): apply the pending search term AND reset the page to 1 in the
same state update. -/
def debounceFire (s : MDMState) : MDMState :=
  { s with debouncedSearch := s.search, currentPage := 1 }

/-- `handleItemsPerPageChange` (lines 247-252): set the new page size
and reset the page to 1. -/
def handleItemsPerPageChange (s : MDMState) (value : Nat) : MDMState :=
  { s with itemsPerPage := value, currentPage := 1 }

/-- `handlePageChange` (line 246). -/
def handlePageChange (s : MDMState) (newPage : Nat) : MDMState :=
  { s with currentPage := newPage }

/-- The query key `[tableName, currentPage, debouncedSearch,
itemsPerPage]` the data query is issued with (lines 161-167). -/
def queryKey (tableName : String) (s : MDMState) : String × Nat × String × Nat :=
  (tableName, s.currentPage, s.debouncedSearch, s.itemsPerPage)

/-- Claim C9: applying a debounced search term or changing the page
size resets `currentPage` to 1, so the query issued after either
transition carries page 1 together with the new term or the new page
size. -/
theorem search_and_page_size_reset_page (s : MDMState) (value : Nat)
    (tableName : String) :
    (debounceFire s).currentPage = 1 ∧
    (handleItemsPerPageChange s value).currentPage = 1 ∧
    queryKey tableName (debounceFire s) = (tableName, 1, s.search, s.itemsPerPage) ∧
    queryKey tableName (handleItemsPerPageChange s value)
        = (tableName, 1, s.debouncedSearch, value) := by
  exact ⟨rfl, rfl, rfl, rfl⟩

/-- The slice of the remote database `deletePurchaseMutation` touches:
the `items` rows, the `purchases` row ids, and the `purchase_items`
rows. -/
structure Database where
  items : List ItemRow
  purchases : List String
  purchase_items : List PurchaseItemRow
deriving Repr, DecidableEq

/-- The mutation's first query (purchase-list/index.tsx lines 144-147):
select `purchase_items` rows with the given `purchase_id`. -/
def selectPurchaseItems (db : Database) (id : String) : List PurchaseItemRow :=
  db.purchase_items.filter (fun l => l.purchase_id == id)

/-- The per-line item select (lines 152-156): the `items` row with the
given id, when present. -/
def selectItem (db : Database) (itemId : String) : Option ItemRow :=
  db.items.find? (fun it => it.id == itemId)

/-- The per-line stock update (lines 177-180): write the new stock on
the row with the given id. -/
def updateItemStock (db : Database) (itemId : String) (stockValue : ℚ) : Database :=
  { db with
      items := db.items.map (fun it =>
        if it.id == itemId then { it with stock := some stockValue } else it) }

/-- The rollback loop of `deletePurchaseMutation` (lines 151-182) with
fault injection: each awaited backend round trip carries an index
(`calls`), and the round trip numbered `failAt` throws.  A throw aborts
the mutation and leaves the database exactly as the writes so far left
it; the `Bool` records whether the loop ran to completion.  A line
whose item row is missing performs no update (the code guards on
`if (itemData)`). -/
def rollbackLoop : Database → List PurchaseItemRow → Nat → Nat → Bool × Database × Nat
  | db, [], calls, _ => (true, db, calls)
  | db, item :: rest, calls, failAt =>
    if calls = failAt then (false, db, calls)
    else
      match selectItem db item.item_id with
      | none => rollbackLoop db rest (calls + 1) failAt
      | some itemData =>
        if calls + 1 = failAt then (false, db, calls + 1)
        else
          rollbackLoop
            (updateItemStock db item.item_id (newStockAfterRollback item itemData))
            rest (calls + 2) failAt

/-- `deletePurchaseMutation` (purchase-list/index.tsx lines 142-187)
under the same fault model: round trip 0 selects the purchase lines,
the loop's selects and updates follow, and the final round trip deletes
the `purchases` row.  Nothing is transactional: an aborted run returns
the database as already written, with no undo. -/
def deletePurchaseMutation (db : Database) (id : String) (failAt : Nat) : Bool × Database :=
  if 0 = failAt then (false, db)
  else
    match rollbackLoop db (selectPurchaseItems db id) 1 failAt with
    | (false, db2, _) => (false, db2)
    | (true, db2, calls) =>
      if calls = failAt then (false, db2)
      else (true, { db2 with purchases := db2.purchases.filter (fun p => !(p == id)) })

/-- Claim C4: the purchase deletion is not atomic.  On a database with
purchase "p1" covering items "i1" (stock 100, 10 bought) and "i2"
(stock 50, 5 bought), the backend call numbered 3 — the item select of
the second loop iteration, after the first stock update has succeeded —
can throw, and the run then ends in failure with "i1" already written
down to 90 while "i2" still holds 50 and the purchase row "p1" still
exists; nothing is undone. -/
theorem deletePurchaseMutation_not_atomic :
    ∃ failAt : Nat,
      (deletePurchaseMutation
          ⟨[⟨"i1", some 100, "pcs", []⟩, ⟨"i2", some 50, "pcs", []⟩], ["p1"],
            [⟨"p1", "i1", 10, "pcs"⟩, ⟨"p1", "i2", 5, "pcs"⟩]⟩ "p1" failAt).1
          = false ∧
      selectItem (deletePurchaseMutation
          ⟨[⟨"i1", some 100, "pcs", []⟩, ⟨"i2", some 50, "pcs", []⟩], ["p1"],
            [⟨"p1", "i1", 10, "pcs"⟩, ⟨"p1", "i2", 5, "pcs"⟩]⟩ "p1" failAt).2 "i1"
          = some ⟨"i1", some 90, "pcs", []⟩ ∧
      selectItem (deletePurchaseMutation
          ⟨[⟨"i1", some 100, "pcs", []⟩, ⟨"i2", some 50, "pcs", []⟩], ["p1"],
            [⟨"p1", "i1", 10, "pcs"⟩, ⟨"p1", "i2", 5, "pcs"⟩]⟩ "p1" failAt).2 "i2"
          = some ⟨"i2", some 50, "pcs", []⟩ ∧
      "p1" ∈ (deletePurchaseMutation
          ⟨[⟨"i1", some 100, "pcs", []⟩, ⟨"i2", some 50, "pcs", []⟩], ["p1"],
            [⟨"p1", "i1", 10, "pcs"⟩, ⟨"p1", "i2", 5, "pcs"⟩]⟩ "p1" failAt).2.purchases := by
  refine ⟨3, ?_⟩
  norm_num [deletePurchaseMutation, rollbackLoop, selectPurchaseItems, selectItem,
    updateItemStock, newStockAfterRollback, rollbackQuantityInBaseUnit,
    List.filter, List.find?, List.map]
  decide

end PharmaSys
